import Mathlib

/-!
Shallow embedding of the food-delivery backend (src/main.py, src/schemas.py)
and proofs of the claims of the specification about it.

Modelling conventions:
* Python floats carrying money values are modelled as exact rationals (ℚ).
* Mongo ObjectIds are modelled as 24-character hexadecimal strings; the store
  assigns them from a counter carried in the `DB` state.
* A Mongo collection is modelled as a list of documents; a collection that is
  "absent from list_collection_names" and an existing-but-empty collection
  both have zero documents, so the source condition
  `"restaurant" not in collections or count_documents == 0` collapses to
  emptiness of the list.
* `database.py` (imported by main.py but not part of the given sources) is
  modelled from the spec where noted.
-/

namespace FoodDelivery

/-- Python round(x, 2) rounds half to even (bankers rounding); integer part
of that scheme on a rational. -/
def roundHalfEven (q : ℚ) : ℤ :=
  let f : ℤ := ⌊q⌋
  let frac : ℚ := q - f
  if frac < 1/2 then f
  else if 1/2 < frac then f + 1
  else if f % 2 = 0 then f else f + 1

/-- Model of round(x, 2) from Python: round to two decimal places, half to even. -/
def round2 (q : ℚ) : ℚ := (roundHalfEven (q * 100) : ℚ) / 100

/-- Hexadecimal rendering of a store-assigned identifier, zero-padded to the
24 characters of a Mongo ObjectId. -/
def oid (n : Nat) : String :=
  let s := String.mk (Nat.toDigits 16 n)
  String.mk (List.replicate (24 - s.length) '0') ++ s

def isHexChar (c : Char) : Bool :=
  ('0' ≤ c && c ≤ '9') || ('a' ≤ c && c ≤ 'f') || ('A' ≤ c && c ≤ 'F')

/-- Validity of an ObjectId string as checked by `bson.ObjectId`:
24 hexadecimal characters. -/
def isValidObjectId (s : String) : Bool :=
  s.length == 24 && s.toList.all isHexChar

/-! ## Data model (src/schemas.py) -/

/-- schemas.py `Restaurant` (pydantic model, fields only). -/
structure Restaurant where
  name : String
  description : Option String
  image : Option String
  cuisine : String
  rating : ℚ
  delivery_time_min : ℤ
deriving DecidableEq, Repr

/-- schemas.py `MenuItem`. -/
structure MenuItem where
  restaurant_id : String
  name : String
  description : Option String
  price : ℚ
  image : Option String
  category : Option String
deriving DecidableEq, Repr

/-- schemas.py `OrderItem`. -/
structure OrderItem where
  menu_item_id : String
  name : String
  quantity : ℤ
  price : ℚ
deriving DecidableEq, Repr

/-- The pydantic `Field` range constraints of schemas.py `OrderItem`:
`quantity: int = Field(1, ge=1)`; `price: float` carries no constraint. -/
def OrderItem.fieldValid (i : OrderItem) : Bool :=
  1 ≤ i.quantity

/-- schemas.py `Order`. -/
structure Order where
  restaurant_id : String
  customer_name : String
  address : String
  phone : String
  items : List OrderItem
  total : ℚ
  status : String
deriving DecidableEq, Repr

/-- main.py `CreateOrder` request body (no `total` field is declared, so no
client-supplied total is ever read). -/
structure CreateOrder where
  restaurant_id : String
  customer_name : String
  address : String
  phone : String
  items : List OrderItem
deriving DecidableEq, Repr

/-- Boundary validation FastAPI performs on a `CreateOrder` body from the
pydantic declarations: every item must satisfy its field constraints; the
item list itself has no minimum-length constraint. -/
def CreateOrder.fieldValid (p : CreateOrder) : Bool :=
  p.items.all OrderItem.fieldValid

/-! ## Store model -/

/-- A stored document: the payload plus the store-assigned `_id`. -/
structure Doc (α : Type) where
  _id : String
  data : α
deriving DecidableEq, Repr

/-- State of the document store: the three collections used by the endpoints
plus the identifier counter. -/
structure DB where
  restaurant : List (Doc Restaurant)
  menuitem : List (Doc MenuItem)
  order : List (Doc Order)
  counter : Nat
deriving DecidableEq, Repr

/-- Error classes surfaced by the endpoints: `validation` is the 422 raised by
FastAPI when the body fails pydantic validation, `unavailable` the
HTTPException(500, "Database not configured"). -/
inductive ApiErr where
  | validation
  | unavailable
deriving DecidableEq, Repr

/-- Modelled from the spec: `database.create_document` (database.py is not
under src/) inserts one document into a collection, letting the store assign
a fresh identifier; here generalized to a whole batch inserted in a loop, as
the seed endpoint does. Returns the next counter and the new collection. -/
def attachIds {α : Type} : Nat → List α → List (Doc α)
  | _, [] => []
  | c, a :: rest => ⟨oid c, a⟩ :: attachIds (c + 1) rest

def insertAll {α : Type} (c : Nat) (xs : List (Doc α)) (new : List α) :
    Nat × List (Doc α) :=
  (c + new.length, xs ++ attachIds c new)

/-- Modelled from the spec: `database.get_documents` (database.py is not under
src/) returns the documents of a collection matching a filter. -/
def get_documents {α : Type} (docs : List (Doc α)) (pred : Doc α → Bool) :
    List (Doc α) :=
  docs.filter pred

/-! ## Endpoints (src/main.py) -/

/-- The three sample restaurants of main.py `seed_data`. -/
def sampleRestaurants : List Restaurant :=
  [ { name := "Pasta Palace", cuisine := "Italian",
      description := some "Homemade pasta and sauces",
      image := some "https://images.unsplash.com/photo-1521389508051-d7ffb5dc8bbf",
      rating := 4.6, delivery_time_min := 30 },
    { name := "Sushi Express", cuisine := "Japanese",
      description := some "Fresh nigiri and rolls",
      image := some "https://images.unsplash.com/photo-1544025162-d76694265947",
      rating := 4.8, delivery_time_min := 25 },
    { name := "Spice Route", cuisine := "Indian",
      description := some "Curries, biryani and more",
      image := some "https://images.unsplash.com/photo-1604908554027-0f2f74a9cfc7",
      rating := 4.5, delivery_time_min := 35 } ]

/-- The menu-item phase of main.py `seed_data`: guarded by `if restaurants:`,
it links the four sample items to `restaurants[0]`, `restaurants[1]` (falling
back to the first) and `restaurants[2]` (falling back to the first). -/
def seedMenuItems (restaurants : List (Doc Restaurant)) : List MenuItem :=
  match restaurants with
  | [] => []
  | r0 :: rest =>
    let first := r0._id
    let second := match rest with
      | [] => first
      | r1 :: _ => r1._id
    let third := match rest with
      | _ :: r2 :: _ => r2._id
      | _ => first
    [ { restaurant_id := first, name := "Spaghetti Carbonara",
        description := some "Creamy sauce with pancetta", price := 14.99,
        image := some "https://images.unsplash.com/photo-1603133872878-684f208fb86a",
        category := some "Mains" },
      { restaurant_id := first, name := "Margherita Pizza",
        description := some "Classic tomatoes and mozzarella", price := 12.5,
        image := some "https://images.unsplash.com/photo-1548365328-9f547fb09530",
        category := some "Mains" },
      { restaurant_id := second, name := "Salmon Nigiri (6)",
        description := some "Fresh cut salmon over rice", price := 11.99,
        image := some "https://images.unsplash.com/photo-1562158070-1a4f3f8f7c21",
        category := some "Sushi" },
      { restaurant_id := third, name := "Chicken Tikka Masala",
        description := some "Charred chicken in spicy sauce", price := 13.75,
        image := some "https://images.unsplash.com/photo-1604908177031-842fa9a316d2",
        category := some "Mains" } ]

/-- The inserted-count report returned by `/seed`. -/
structure SeedCounts where
  restaurants : Nat
  menuitem : Nat
deriving DecidableEq, Repr

/-- First block of main.py `seed_data`: if the restaurant collection is empty
(equivalently, absent from `list_collection_names` or with zero documents),
insert the three sample restaurants, counting one per insert. -/
def seedRestaurantPhase (db : DB) : DB × Nat :=
  if db.restaurant.isEmpty then
    let p := insertAll db.counter db.restaurant sampleRestaurants
    ({ db with restaurant := p.2, counter := p.1 }, sampleRestaurants.length)
  else (db, 0)

/-- Second block of main.py `seed_data`: if the menuitem collection is empty,
fetch the restaurants currently in the store and, when that list is non-empty
(`if restaurants:`), insert the four sample menu items linked against it. -/
def seedMenuPhase (db : DB) : DB × Nat :=
  if db.menuitem.isEmpty then
    let items := seedMenuItems db.restaurant
    let p := insertAll db.counter db.menuitem items
    ({ db with menuitem := p.2, counter := p.1 }, items.length)
  else (db, 0)

/-- main.py `seed_data` on a connected store: insert the sample restaurants if
the restaurant collection is empty, then insert the sample menu items (linked
to the restaurants present at that point) if the menuitem collection is
empty, and report both inserted counts. -/
def seedRun (db : DB) : DB × SeedCounts :=
  let step1 := seedRestaurantPhase db
  let step2 := seedMenuPhase step1.1
  (step2.1, ⟨step1.2, step2.2⟩)

/-- POST /seed: fails with 500 when the connection was never initialized,
otherwise runs the seeding routine. -/
def seed_data (dbConn : Option DB) : Except ApiErr (DB × SeedCounts) :=
  match dbConn with
  | none => .error .unavailable
  | some db => .ok (seedRun db)

/-- GET /restaurants/\x7brestaurant_id\x7d/menu: main.py `list_menu`. The
`ObjectId(restaurant_id)` parse in the source is a no-op (its result is
discarded and a parse failure is swallowed by `except: pass`), so the query
always proceeds to a string-equality filter on the stored `restaurant_id`. -/
def list_menu (db : DB) (restaurant_id : String) : List (Doc MenuItem) :=
  get_documents db.menuitem (fun m => m.data.restaurant_id == restaurant_id)

/-- The left-fold sum `sum(item.price * item.quantity for item in items)` of
main.py `create_order`. -/
def orderItemsTotal (items : List OrderItem) : ℚ :=
  items.foldl (fun acc i => acc + i.price * (i.quantity : ℚ)) 0

/-- The JSON body returned by POST /orders. -/
structure CreateOrderResponse where
  order_id : String
  status : String
  total : ℚ
deriving DecidableEq, Repr

/-- POST /orders: FastAPI first validates the body against the pydantic
declarations (422 on failure), then main.py `create_order` runs: 500 if the
connection was never initialized, otherwise the total is recomputed
server-side, the order persisted with status "pending", and the id, status
and computed total returned. -/
def create_order (dbConn : Option DB) (payload : CreateOrder) :
    Except ApiErr (DB × CreateOrderResponse) :=
  if payload.fieldValid then
    match dbConn with
    | none => .error .unavailable
    | some db =>
      let total := round2 (orderItemsTotal payload.items)
      let o : Order :=
        { restaurant_id := payload.restaurant_id,
          customer_name := payload.customer_name,
          address := payload.address,
          phone := payload.phone,
          items := payload.items,
          total := total,
          status := "pending" }
      let i := oid db.counter
      .ok ({ db with order := db.order ++ [⟨i, o⟩], counter := db.counter + 1 },
           { order_id := i, status := "pending", total := o.total })
  else .error .validation

/-! ## Concrete states and payloads used to instantiate the theorems -/

/-- An empty, freshly connected store. -/
def db0 : DB := ⟨[], [], [], 0⟩

/-- The order of the example scenario in the spec: items
`[(price 14.99, quantity 2), (price 12.50, quantity 1)]`. -/
def examplePayload : CreateOrder :=
  { restaurant_id := "64b000000000000000000001",
    customer_name := "Alice",
    address := "1 Main Street",
    phone := "555-0100",
    items :=
      [ { menu_item_id := "64b000000000000000000011", name := "Spaghetti Carbonara",
          quantity := 2, price := 14.99 },
        { menu_item_id := "64b000000000000000000012", name := "Margherita Pizza",
          quantity := 1, price := 12.5 } ] }

/-- The computed total of the example order. -/
def exampleTotal : ℚ := round2 (orderItemsTotal examplePayload.items)

/-- The order document persisted for the example payload. -/
def exampleOrder : Order :=
  { restaurant_id := examplePayload.restaurant_id,
    customer_name := examplePayload.customer_name,
    address := examplePayload.address,
    phone := examplePayload.phone,
    items := examplePayload.items,
    total := exampleTotal,
    status := "pending" }

/-- The store state after the example order is created on `db0`. -/
def exampleDB2 : DB := { db0 with order := [⟨oid 0, exampleOrder⟩], counter := 1 }

/-- The response returned for the example order. -/
def exampleResponse : CreateOrderResponse :=
  { order_id := oid 0, status := "pending", total := exampleTotal }

/-! ## Helper lemmas -/

theorem attachIds_map_data {α : Type} (c : Nat) (l : List α) :
    (attachIds c l).map Doc.data = l := by
  induction l generalizing c with
  | nil => rfl
  | cons a t ih => simp [attachIds, ih]

theorem mem_attachIds {α : Type} {c : Nat} {l : List α} {m : Doc α}
    (h : m ∈ attachIds c l) : m.data ∈ l := by
  induction l generalizing c with
  | nil => simp [attachIds] at h
  | cons a t ih =>
    simp only [attachIds, List.mem_cons] at h
    rcases h with h | h
    · subst h; simp
    · exact List.mem_cons_of_mem _ (ih h)

theorem foldl_add_map {α : Type} (f : α → ℚ) (l : List α) (init : ℚ) :
    l.foldl (fun acc a => acc + f a) init = init + (l.map f).sum := by
  induction l generalizing init with
  | nil => simp
  | cons a t ih => simp [ih]; ring

theorem orderItemsTotal_eq_sum (items : List OrderItem) :
    orderItemsTotal items = (items.map fun i => i.price * (i.quantity : ℚ)).sum := by
  simp [orderItemsTotal, foldl_add_map]

theorem seedRestaurantPhase_menuitem (db : DB) :
    (seedRestaurantPhase db).1.menuitem = db.menuitem := by
  unfold seedRestaurantPhase
  split <;> rfl

theorem seedRestaurantPhase_restaurant_ne_nil (db : DB) :
    (seedRestaurantPhase db).1.restaurant ≠ [] := by
  unfold seedRestaurantPhase
  split
  · simp [insertAll, sampleRestaurants, attachIds]
  · next h => simpa using h

theorem seedRestaurantPhase_of_ne_nil {db : DB} (h : db.restaurant ≠ []) :
    seedRestaurantPhase db = (db, 0) := by
  unfold seedRestaurantPhase
  simp [h]

theorem seedMenuPhase_restaurant (db : DB) :
    (seedMenuPhase db).1.restaurant = db.restaurant := by
  unfold seedMenuPhase
  split <;> rfl

theorem seedMenuPhase_of_ne_nil {db : DB} (h : db.menuitem ≠ []) :
    seedMenuPhase db = (db, 0) := by
  unfold seedMenuPhase
  simp [h]

theorem seedMenuItems_ne_nil {rs : List (Doc Restaurant)} (h : rs ≠ []) :
    seedMenuItems rs ≠ [] := by
  match rs with
  | [] => exact absurd rfl h
  | r0 :: rest => simp [seedMenuItems]

theorem seedMenuPhase_menuitem_ne_nil {db : DB} (h : db.restaurant ≠ []) :
    (seedMenuPhase db).1.menuitem ≠ [] := by
  unfold seedMenuPhase
  split
  · next he =>
    have : db.menuitem = [] := by simpa using he
    match hm : seedMenuItems db.restaurant with
    | [] => exact absurd hm (seedMenuItems_ne_nil h)
    | i :: rest => simp [insertAll, this, hm, attachIds]
  · next he => simpa using he

theorem seedRun_restaurant_ne_nil (db : DB) :
    (seedRun db).1.restaurant ≠ [] := by
  unfold seedRun
  rw [seedMenuPhase_restaurant]
  exact seedRestaurantPhase_restaurant_ne_nil db

theorem seedRun_menuitem_ne_nil (db : DB) :
    (seedRun db).1.menuitem ≠ [] := by
  unfold seedRun
  exact seedMenuPhase_menuitem_ne_nil (seedRestaurantPhase_restaurant_ne_nil db)

theorem seedRun_of_ne_nil {db : DB} (hr : db.restaurant ≠ []) (hm : db.menuitem ≠ []) :
    seedRun db = (db, ⟨0, 0⟩) := by
  simp [seedRun, seedRestaurantPhase_of_ne_nil hr, seedMenuPhase_of_ne_nil hm]

theorem seedMenuItems_linkage (rs : List (Doc Restaurant)) :
    ∀ i ∈ seedMenuItems rs, i.restaurant_id ∈ rs.map Doc._id := by
  match rs with
  | [] => intro i hi; simp [seedMenuItems] at hi
  | [a] =>
    intro i hi
    simp only [seedMenuItems, List.mem_cons, List.not_mem_nil, or_false] at hi
    rcases hi with h | h | h | h <;> subst h <;> simp
  | [a, b] =>
    intro i hi
    simp only [seedMenuItems, List.mem_cons, List.not_mem_nil, or_false] at hi
    rcases hi with h | h | h | h <;> subst h <;> simp
  | a :: b :: c :: rest =>
    intro i hi
    simp only [seedMenuItems, List.mem_cons, List.not_mem_nil, or_false] at hi
    rcases hi with h | h | h | h <;> subst h <;> simp

theorem seedMenuPhase_menuitem_append (db : DB) :
    ∃ new, (seedMenuPhase db).1.menuitem = db.menuitem ++ new ∧
      ∀ m ∈ new, m.data ∈ seedMenuItems db.restaurant := by
  unfold seedMenuPhase
  split
  · exact ⟨attachIds db.counter (seedMenuItems db.restaurant), rfl,
      fun m hm => mem_attachIds hm⟩
  · exact ⟨[], by simp, by simp⟩

/-- A store whose two catalog collections are both populated, used to
instantiate the idempotence theorem. -/
def dbNE : DB :=
  ⟨[⟨oid 100,
      { name := "R", description := none, image := none, cuisine := "X",
        rating := 4, delivery_time_min := 20 }⟩],
   [⟨oid 101,
      { restaurant_id := oid 100, name := "M", description := none,
        price := 5, image := none, category := none }⟩],
   [], 102⟩

/-! ## Claims -/

/-- C5: seeding is idempotent — after any seed call both collections are
populated, so running seed a second time changes no stored document and
reports both inserted counts as zero; moreover, on any store whose restaurant
and menuitem collections are already non-empty, a seed call is a no-op
reporting zero inserted restaurants and zero inserted menu items. -/
theorem seed_idempotent (db : DB) :
    seedRun (seedRun db).1 = ((seedRun db).1, ⟨0, 0⟩) ∧
    (db.restaurant ≠ [] → db.menuitem ≠ [] → seedRun db = (db, ⟨0, 0⟩)) :=
  ⟨seedRun_of_ne_nil (seedRun_restaurant_ne_nil db) (seedRun_menuitem_ne_nil db),
   fun hr hm => seedRun_of_ne_nil hr hm⟩

theorem seed_idempotent_witness :
    seedRun (seedRun db0).1 = ((seedRun db0).1, ⟨0, 0⟩) ∧
    seedRun dbNE = (dbNE, ⟨0, 0⟩) :=
  ⟨(seed_idempotent db0).1, (seed_idempotent dbNE).2 (by decide) (by decide)⟩

/-- C6: every menu item inserted by the seeding routine carries as its
`restaurant_id` the identifier string of a restaurant present in the store
when the menu phase runs, and the four sample items are linked to the first,
first, second and third restaurant, the second and third falling back to the
first when fewer than two, respectively three, restaurants exist. -/
theorem seed_menu_linkage (db : DB) :
    (∃ new, (seedRun db).1.menuitem = db.menuitem ++ new ∧
        ∀ m ∈ new, m.data.restaurant_id ∈ (seedRun db).1.restaurant.map Doc._id) ∧
    (∀ (a b c : Doc Restaurant) (rest : List (Doc Restaurant)),
        (seedMenuItems (a :: b :: c :: rest)).map MenuItem.restaurant_id
          = [a._id, a._id, b._id, c._id]) ∧
    (∀ a b : Doc Restaurant,
        (seedMenuItems [a, b]).map MenuItem.restaurant_id
          = [a._id, a._id, b._id, a._id]) ∧
    (∀ a : Doc Restaurant,
        (seedMenuItems [a]).map MenuItem.restaurant_id
          = [a._id, a._id, a._id, a._id]) := by
  refine ⟨?_, fun a b c rest => rfl, fun a b => rfl, fun a => rfl⟩
  obtain ⟨new, hnew, hmem⟩ := seedMenuPhase_menuitem_append (seedRestaurantPhase db).1
  refine ⟨new, ?_, ?_⟩
  · show (seedMenuPhase (seedRestaurantPhase db).1).1.menuitem = _
    rw [hnew, seedRestaurantPhase_menuitem]
  · intro m hm
    have h1 : (seedRun db).1.restaurant = (seedRestaurantPhase db).1.restaurant :=
      seedMenuPhase_restaurant _
    rw [h1]
    exact seedMenuItems_linkage _ _ (hmem m hm)

theorem seed_menu_linkage_witness :
    ∃ new, (seedRun db0).1.menuitem = db0.menuitem ++ new ∧
      ∀ m ∈ new, m.data.restaurant_id ∈ (seedRun db0).1.restaurant.map Doc._id :=
  (seed_menu_linkage db0).1

theorem seedRestaurantPhase_count (db : DB) :
    (seedRestaurantPhase db).2 = 0 ∨ (seedRestaurantPhase db).2 = 3 := by
  unfold seedRestaurantPhase
  split
  · right; rfl
  · left; rfl

theorem seedMenuPhase_count (db : DB) :
    (seedMenuPhase db).2 = 0 ∨ (seedMenuPhase db).2 = 4 := by
  unfold seedMenuPhase
  split
  · cases hrs : db.restaurant with
    | nil => left; simp [hrs, seedMenuItems]
    | cons r rest => right; simp [hrs, seedMenuItems]
  · left; rfl

theorem seedMenuPhase_empty_restaurants {d : DB} (hd : d.restaurant = []) :
    seedMenuPhase d = (d, 0) := by
  obtain ⟨rs, ms, os, cnt⟩ := d
  simp only at hd
  subst hd
  unfold seedMenuPhase
  split
  · simp [seedMenuItems, insertAll, attachIds]
  · rfl

/-- C10: the inserted counts reported by the seeding routine are always 0 or 3
for restaurants and 0 or 4 for menu items; the menu phase inserts nothing at
all when the restaurant list it fetches is empty (the `if restaurants:` guard
skips menu seeding silently), even if the menuitem collection is empty. -/
theorem seed_counts (db : DB) :
    ((seedRun db).2.restaurants = 0 ∨ (seedRun db).2.restaurants = 3) ∧
    ((seedRun db).2.menuitem = 0 ∨ (seedRun db).2.menuitem = 4) ∧
    seedMenuItems [] = [] ∧
    (∀ d : DB, d.restaurant = [] → seedMenuPhase d = (d, 0)) := by
  refine ⟨?_, ?_, rfl, fun d hd => seedMenuPhase_empty_restaurants hd⟩
  · exact seedRestaurantPhase_count db
  · exact seedMenuPhase_count (seedRestaurantPhase db).1

theorem seed_counts_witness :
    ((seedRun db0).2.restaurants = 0 ∨ (seedRun db0).2.restaurants = 3) ∧
    ((seedRun db0).2.menuitem = 0 ∨ (seedRun db0).2.menuitem = 4) ∧
    seedMenuPhase db0 = (db0, 0) :=
  ⟨(seed_counts db0).1, (seed_counts db0).2.1, (seed_counts db0).2.2.2 db0 rfl⟩

/-- A populated catalog used to instantiate the menu-filter theorem: two menu
items owned by different restaurants. -/
def dbMenu : DB :=
  ⟨[⟨oid 1,
      { name := "A", description := none, image := none, cuisine := "C",
        rating := 4, delivery_time_min := 20 }⟩],
   [⟨oid 2,
      { restaurant_id := oid 1, name := "Dish one", description := none,
        price := 3, image := none, category := none }⟩,
    ⟨oid 3,
      { restaurant_id := oid 9, name := "Dish two", description := none,
        price := 7, image := none, category := none }⟩],
   [], 10⟩

/-- C7: listing the menu for an identifier string `x` returns exactly the
stored menu items whose `restaurant_id` equals `x` under string equality; and
when every stored reference is a well-formed ObjectId string, a query string
that is not a well-formed ObjectId still goes through the filter and returns
the empty list instead of failing. -/
theorem list_menu_filter (db : DB) (x : String) :
    (∀ d : Doc MenuItem, d ∈ list_menu db x ↔ d ∈ db.menuitem ∧ d.data.restaurant_id = x) ∧
    ((∀ m ∈ db.menuitem, isValidObjectId m.data.restaurant_id = true) →
      isValidObjectId x = false → list_menu db x = []) := by
  constructor
  · intro d
    simp [list_menu, get_documents, List.mem_filter]
  · intro hall hx
    have : ∀ m ∈ db.menuitem, ¬((fun m : Doc MenuItem => m.data.restaurant_id == x) m = true) := by
      intro m hm hcontra
      have heq : m.data.restaurant_id = x := by simpa using hcontra
      have := hall m hm
      rw [heq] at this
      rw [this] at hx
      exact Bool.true_eq_false.mp hx
    simpa [list_menu, get_documents] using List.filter_eq_nil_iff.mpr this

theorem list_menu_filter_witness :
    (∀ d : Doc MenuItem, d ∈ list_menu dbMenu (oid 1) ↔
        d ∈ dbMenu.menuitem ∧ d.data.restaurant_id = oid 1) ∧
    list_menu dbMenu "not-a-valid-objectid" = [] :=
  ⟨(list_menu_filter dbMenu (oid 1)).1,
   (list_menu_filter dbMenu "not-a-valid-objectid").2 (by decide) (by decide)⟩

theorem create_order_ok {db : DB} {p : CreateOrder} (h : p.fieldValid = true) :
    create_order (some db) p =
      Except.ok
        ({ db with
            order := db.order ++
              [⟨oid db.counter,
                { restaurant_id := p.restaurant_id, customer_name := p.customer_name,
                  address := p.address, phone := p.phone, items := p.items,
                  total := round2 (orderItemsTotal p.items), status := "pending" }⟩],
            counter := db.counter + 1 },
         { order_id := oid db.counter, status := "pending",
           total := round2 (orderItemsTotal p.items) }) := by
  unfold create_order
  rw [h]
  rfl

theorem create_order_invalid {dbConn : Option DB} {p : CreateOrder}
    (h : p.fieldValid = false) :
    create_order dbConn p = Except.error ApiErr.validation := by
  unfold create_order
  rw [h]
  rfl

/-- C1: the order total is recomputed server-side as
round(Σ price × quantity, 2): on every successful creation the response total
equals that sum over the items of the request, the status is "pending", and
exactly one order document with that same total is appended; the request body
`CreateOrder` declares no total field, so no client-claimed total is read.
For the example items [(14.99, 2), (12.50, 1)] of the spec the total is 42.48. -/
theorem create_order_total :
    (∀ (db db2 : DB) (p : CreateOrder) (r : CreateOrderResponse),
        create_order (some db) p = Except.ok (db2, r) →
        r.total = round2 ((p.items.map fun i => i.price * (i.quantity : ℚ)).sum) ∧
        r.status = "pending" ∧
        ∃ o : Doc Order, db2.order = db.order ++ [o] ∧ o.data.total = r.total ∧
          o.data.status = "pending") ∧
    create_order (some db0) examplePayload = Except.ok (exampleDB2, exampleResponse) ∧
    exampleResponse.total = 42.48 ∧ exampleResponse.status = "pending" := by
  refine ⟨?_, rfl, ?_, rfl⟩
  · intro db db2 p r h
    cases hfv : p.fieldValid with
    | false =>
      rw [create_order_invalid hfv] at h
      exact absurd h (by simp)
    | true =>
      rw [create_order_ok hfv] at h
      simp only [Except.ok.injEq, Prod.mk.injEq] at h
      obtain ⟨hdb, hr⟩ := h
      subst hdb
      subst hr
      refine ⟨?_, rfl, ⟨_, rfl, rfl, rfl⟩⟩
      rw [orderItemsTotal_eq_sum]
  · norm_num [exampleResponse, exampleTotal, round2, roundHalfEven, orderItemsTotal,
      examplePayload]

theorem create_order_total_witness :
    exampleResponse.total =
        round2 ((examplePayload.items.map fun i => i.price * (i.quantity : ℚ)).sum) ∧
    exampleResponse.status = "pending" ∧
    ∃ o : Doc Order, exampleDB2.order = db0.order ++ [o] ∧
      o.data.total = exampleResponse.total ∧ o.data.status = "pending" :=
  create_order_total.1 db0 exampleDB2 examplePayload exampleResponse rfl

/-- Order request with an empty item list. -/
def emptyItemsPayload : CreateOrder :=
  { restaurant_id := "64b000000000000000000002", customer_name := "Bob",
    address := "2 Side Street", phone := "555-0101", items := [] }

/-- The order document persisted for the empty-item-list request. -/
def emptyOrder : Order :=
  { restaurant_id := emptyItemsPayload.restaurant_id,
    customer_name := emptyItemsPayload.customer_name,
    address := emptyItemsPayload.address,
    phone := emptyItemsPayload.phone,
    items := emptyItemsPayload.items,
    total := round2 (orderItemsTotal emptyItemsPayload.items),
    status := "pending" }

/-- The store state after the empty-item-list order is created on `db0`. -/
def emptyDB2 : DB := { db0 with order := [⟨oid 0, emptyOrder⟩], counter := 1 }

/-- The response returned for the empty-item-list order. -/
def emptyResponse : CreateOrderResponse :=
  { order_id := oid 0, status := "pending",
    total := round2 (orderItemsTotal emptyItemsPayload.items) }

/-- C2 counterexample: a creation request whose item list is empty is not
rejected — it passes validation, no validation error is returned, and an
order document (with total 0) is persisted. -/
theorem create_order_empty_items_cx :
    emptyItemsPayload.items = [] ∧
    create_order (some db0) emptyItemsPayload ≠ Except.error ApiErr.validation ∧
    create_order (some db0) emptyItemsPayload = Except.ok (emptyDB2, emptyResponse) ∧
    emptyDB2.order.length = 1 ∧ emptyResponse.total = 0 := by
  refine ⟨rfl, ?_, rfl, rfl, ?_⟩
  · intro hcontra
    rw [show create_order (some db0) emptyItemsPayload
        = Except.ok (emptyDB2, emptyResponse) from rfl] at hcontra
    exact Except.noConfusion hcontra
  · norm_num [emptyResponse, round2, roundHalfEven, orderItemsTotal, emptyItemsPayload]

/-- C2 amended: an empty item list passes the boundary validation (the item
list carries no minimum-length constraint), and the order is persisted with
computed total 0 and a success response returned. -/
theorem create_order_empty_items_accepted (db : DB) (p : CreateOrder)
    (h : p.items = []) :
    p.fieldValid = true ∧
    ∃ db2 r, create_order (some db) p = Except.ok (db2, r) ∧ r.total = 0 ∧
      ∃ o : Doc Order, db2.order = db.order ++ [o] := by
  have hfv : p.fieldValid = true := by simp [CreateOrder.fieldValid, h]
  refine ⟨hfv, _, _, create_order_ok hfv, ?_, _, rfl⟩
  show round2 (orderItemsTotal p.items) = 0
  rw [h]
  norm_num [orderItemsTotal, round2, roundHalfEven]

theorem create_order_empty_items_accepted_witness :
    emptyItemsPayload.fieldValid = true ∧
    ∃ db2 r, create_order (some db0) emptyItemsPayload = Except.ok (db2, r) ∧
      r.total = 0 ∧ ∃ o : Doc Order, db2.order = db0.order ++ [o] :=
  create_order_empty_items_accepted db0 emptyItemsPayload rfl

/-- An order item with a negative unit price, inside an otherwise valid
request. -/
def negPriceItem : OrderItem :=
  { menu_item_id := "64b000000000000000000013", name := "Comped dish",
    quantity := 1, price := -5 }

def negPricePayload : CreateOrder :=
  { restaurant_id := "64b000000000000000000003", customer_name := "Carol",
    address := "3 High Street", phone := "555-0102", items := [negPriceItem] }

/-- C3 counterexample: an order item with price −5 does not signal a
validation condition — the request is accepted and the order persisted with
the negative total −5. -/
theorem create_order_negative_price_cx :
    (∃ i ∈ negPricePayload.items, i.price < 0) ∧
    create_order (some db0) negPricePayload ≠ Except.error ApiErr.validation ∧
    ∃ db2 r, create_order (some db0) negPricePayload = Except.ok (db2, r) ∧
      r.total = -5 := by
  have hfv : negPricePayload.fieldValid = true := by decide
  refine ⟨⟨negPriceItem, ?_, ?_⟩, ?_, _, _, create_order_ok hfv, ?_⟩
  · simp [negPricePayload]
  · norm_num [negPriceItem]
  · rw [create_order_ok hfv]
    simp
  · show round2 (orderItemsTotal negPricePayload.items) = -5
    norm_num [orderItemsTotal, round2, roundHalfEven, negPricePayload, negPriceItem]

/-- C3 amended: the only field constraint on order items is quantity ≥ 1; the
unit price is not range-checked, so any request whose items all have quantity
≥ 1 — whatever their prices, negative ones included — passes validation and is
persisted with a success response. -/
theorem create_order_price_unchecked (db : DB) (p : CreateOrder)
    (h : ∀ i ∈ p.items, 1 ≤ i.quantity) :
    p.fieldValid = true ∧
    ∃ db2 r, create_order (some db) p = Except.ok (db2, r) ∧
      ∃ o : Doc Order, db2.order = db.order ++ [o] := by
  have hfv : p.fieldValid = true := by
    simp only [CreateOrder.fieldValid, List.all_eq_true, OrderItem.fieldValid,
      decide_eq_true_eq]
    exact h
  exact ⟨hfv, _, _, create_order_ok hfv, _, rfl⟩

theorem create_order_price_unchecked_witness :
    negPricePayload.fieldValid = true ∧
    ∃ db2 r, create_order (some db0) negPricePayload = Except.ok (db2, r) ∧
      ∃ o : Doc Order, db2.order = db0.order ++ [o] :=
  create_order_price_unchecked db0 negPricePayload (by decide)

/-- An order item with quantity zero, inside an otherwise valid request. -/
def qty0Item : OrderItem :=
  { menu_item_id := "64b000000000000000000014", name := "Nothing",
    quantity := 0, price := 2 }

def qty0Payload : CreateOrder :=
  { restaurant_id := "64b000000000000000000004", customer_name := "Dan",
    address := "4 Low Road", phone := "555-0103", items := [qty0Item] }

/-- C4: an order item with quantity < 1 (for example quantity 0) fails the
pydantic field validation, so the request is answered with the client-error
validation response; the error carries no store state, so no order is
persisted. -/
theorem create_order_rejects_low_quantity (dbConn : Option DB) (p : CreateOrder)
    (i : OrderItem) (hi : i ∈ p.items) (hq : i.quantity < 1) :
    create_order dbConn p = Except.error ApiErr.validation := by
  apply create_order_invalid
  simp only [CreateOrder.fieldValid, List.all_eq_false, OrderItem.fieldValid]
  exact ⟨i, hi, by simp only [decide_eq_true_eq]; omega⟩

theorem create_order_rejects_low_quantity_witness :
    create_order (some db0) qty0Payload = Except.error ApiErr.validation :=
  create_order_rejects_low_quantity (some db0) qty0Payload qty0Item
    (by simp [qty0Payload]) (by decide)

/-- C8: when the backing connection was never initialized (db is None), the
seed endpoint and the create-order endpoint (for a body that passes
validation and hence reaches the handler) both fail fast with the
server-error "unavailable" response; an error response carries no store
state, so nothing is written to any collection. -/
theorem store_uninitialized_fail_fast :
    seed_data none = Except.error ApiErr.unavailable ∧
    ∀ p : CreateOrder, p.fieldValid = true →
      create_order none p = Except.error ApiErr.unavailable := by
  refine ⟨rfl, fun p h => ?_⟩
  unfold create_order
  rw [h]
  rfl

theorem store_uninitialized_fail_fast_witness :
    seed_data none = Except.error ApiErr.unavailable ∧
    create_order none examplePayload = Except.error ApiErr.unavailable :=
  ⟨store_uninitialized_fail_fast.1,
   store_uninitialized_fail_fast.2 examplePayload (by decide)⟩

/-- C9: order creation checks neither the supplied restaurant identifier nor
any menu-item identifier of the items against the stores — for every body passing
field validation it leaves the catalog collections untouched, appends exactly
one order document echoing the supplied identifiers verbatim, and returns a
success response, whatever those identifiers refer to. -/
theorem create_order_no_existence_check (db : DB) (p : CreateOrder)
    (h : p.fieldValid = true) :
    ∃ db2 r, create_order (some db) p = Except.ok (db2, r) ∧
      db2.restaurant = db.restaurant ∧ db2.menuitem = db.menuitem ∧
      ∃ o : Doc Order, db2.order = db.order ++ [o] ∧
        o.data.restaurant_id = p.restaurant_id ∧ o.data.items = p.items :=
  ⟨_, _, create_order_ok h, rfl, rfl, _, rfl, rfl, rfl⟩

theorem create_order_no_existence_check_witness :
    examplePayload.restaurant_id ∉ db0.restaurant.map Doc._id ∧
    (∀ i ∈ examplePayload.items, i.menu_item_id ∉ db0.menuitem.map Doc._id) ∧
    ∃ db2 r, create_order (some db0) examplePayload = Except.ok (db2, r) ∧
      db2.restaurant = db0.restaurant ∧ db2.menuitem = db0.menuitem ∧
      ∃ o : Doc Order, db2.order = db0.order ++ [o] ∧
        o.data.restaurant_id = examplePayload.restaurant_id ∧
        o.data.items = examplePayload.items :=
  ⟨by simp [db0], by simp [db0],
   create_order_no_existence_check db0 examplePayload (by decide)⟩

end FoodDelivery
